import Mathlib

/-!
Verification of the NAPI X509 CRL async task bridge
(frameworks/js/napi/certificate/src/napi_x509_crl.cpp).

The bridge is embedded shallowly:

* `CfCtx` mirrors the per-invocation context struct field by field
  (pointer-valued handles become `Option` values; native object pointers
  become `Nat` identifiers; buffers become byte lists).
* Worker executors (`GetEncodedExecute`, `VerifyExecute`,
  `GetRevokedCertificatesExecute`, `CreateX509CrlExecute`) are functions
  from a context to an updated context; the outcome of the one native
  call they perform, and of any allocation they attempt, is passed in as
  an explicit oracle argument.
* Completion dispatchers (`GetEncodedComplete`, `VerifyComplete`,
  `GetRevokedCertificatesComplete`, `CreateX509CrlComplete`), the
  delivery helpers (`ReturnResult` and friends) and `FreeCryptoFwkCtx`
  are functions producing a trace of externally visible `Effect`s
  (callback invocation, promise settlement, napi handle deletion,
  buffer frees, native object destruction, object wrapping), in the
  order the C code performs them.
* Entry points (`GetEncoded`, `Verify`, `GetRevokedCertificates`,
  `NapiCreateX509Crl`) and the synchronous wrap paths
  (`GetRevokedCertificate`, `GetRevokedCertificateWithCert`,
  `GetTBSCertList`, `GetSignature`) return the napi value handed back
  to the caller together with their effect trace.

Collaborator outcomes (argument checks, napi allocations, callback
retention) enter as boolean oracle parameters, so every path of the C
code corresponds to a choice of oracle values.
-/

namespace CertFramework

/-- Status codes of the CfResult enumeration used by the file.  Only
their distinctness matters for the properties below. -/
def CF_SUCCESS : Int := 0

def CF_INVALID_PARAMS : Int := -10001

def CF_ERR_MALLOC : Int := -20001

/-- AsyncType from napi_cert_defines.h: completion mode of one invocation. -/
inductive AsyncType where
  | callback
  | promise
deriving DecidableEq

/-- CfArray: a counted sequence of native CRL entry pointers, as filled in
by getRevokedCerts.  `data` lists the entry pointers; `count` is the count
field the C loop iterates over. -/
structure CfArray where
  count : Nat
  data : List Nat
deriving DecidableEq

/-- CfCtx from napi_x509_crl.cpp, field by field.  napi handles are
modelled by presence (`Option Unit`), native object pointers by `Nat`
identifiers, buffers by byte lists. -/
structure CfCtx where
  asyncType : AsyncType := AsyncType.callback
  promise : Option Unit := none
  callback : Option Unit := none
  deferred : Option Unit := none
  asyncWork : Option Unit := none
  encodingBlob : Option (List Nat) := none
  crlClass : Option Nat := none
  certificate : Option Nat := none
  pubKey : Option Nat := none
  serialNumber : Int := 0
  crlEntry : Option Nat := none
  errCode : Int := 0
  errMsg : Option String := none
  crl : Option Nat := none
  encoded : Option (List Nat) := none
  blob : Option (List Nat) := none
  array : Option CfArray := none
deriving DecidableEq

/-- The napi values the bridge hands to the caller.  `null` covers both a
C nullptr napi_value and the JS null produced by CertNapiGetNull. -/
inductive NapiValue where
  | null
  | promiseVal
  | encBlob (data : List Nat)
  | entryArray (entries : List Nat)
  | entryInstance (entry : Nat)
  | crlInstance (crl : Nat)
  | blobVal (data : List Nat)
deriving DecidableEq

/-- Externally visible actions of the bridge, in source order. -/
inductive Effect where
  | deleteAsyncWork
  | deleteReference
  | freeEncodingBlob
  | freeEncoded
  | freeBlob
  | freeArray
  | freeCtx
  | callCallback (err : Option (Int × Option String)) (result : NapiValue)
  | resolveDeferred (result : NapiValue)
  | rejectDeferred (err : Int × Option String)
  | throwErr (err : Int × Option String)
  | objDestroy (obj : Nat)
  | wrapEntry (entry : Nat)
  | wrapCrl (crl : Nat)
  | queueWork
deriving DecidableEq

/-- FreeCryptoFwkCtx: deletes the async work handle and the callback
reference when present, frees the owned encoding blobs, blob and array,
then frees the context itself.  The data frees are null-safe no-ops in C,
so an event is recorded exactly when the resource is present. -/
def FreeCryptoFwkCtx (context : Option CfCtx) : List Effect :=
  match context with
  | none => []
  | some c =>
    (if c.asyncWork.isSome then [Effect.deleteAsyncWork] else [])
    ++ (if c.callback.isSome then [Effect.deleteReference] else [])
    ++ (if c.encodingBlob.isSome then [Effect.freeEncodingBlob] else [])
    ++ (if c.encoded.isSome then [Effect.freeEncoded] else [])
    ++ (if c.blob.isSome then [Effect.freeBlob] else [])
    ++ (if c.array.isSome then [Effect.freeArray] else [])
    ++ [Effect.freeCtx]

/-- The (code, message) pair CertGenerateBusinessError is given. -/
def businessErr (c : CfCtx) : Int × Option String :=
  (c.errCode, c.errMsg)

/-- ReturnCallbackResult: invokes the retained callback once with the
business error (present iff errCode is not CF_SUCCESS) and the result. -/
def ReturnCallbackResult (c : CfCtx) (result : NapiValue) : List Effect :=
  [Effect.callCallback (if c.errCode ≠ CF_SUCCESS then some (businessErr c) else none) result]

/-- ReturnPromiseResult: resolves the deferred with the result on
CF_SUCCESS, otherwise rejects it with the business error. -/
def ReturnPromiseResult (c : CfCtx) (result : NapiValue) : List Effect :=
  if c.errCode = CF_SUCCESS then [Effect.resolveDeferred result]
  else [Effect.rejectDeferred (businessErr c)]

/-- ReturnResult: dispatches on the completion mode. -/
def ReturnResult (c : CfCtx) (result : NapiValue) : List Effect :=
  if c.asyncType = AsyncType.callback then ReturnCallbackResult c result
  else ReturnPromiseResult c result

/-- Modelled from the spec: GetAsyncType lives in napi_cert_utils.cpp,
which is not under src/.  Per the spec (section 4.1), the mode is
Callback iff the actual argument count reaches the maximum expected
count and the final argument is a callable, otherwise Promise. -/
def GetAsyncType (argc maxCount : Nat) (lastIsCallable : Bool) : AsyncType :=
  if argc = maxCount ∧ lastIsCallable = true then AsyncType.callback else AsyncType.promise

/-- CreateCallbackAndPromise: stores the selected mode in the context;
in callback mode retains the callable (`retainOk` is the outcome of
CertGetCallbackFromJSParams) and fails when retention fails; in promise
mode creates the deferred and the promise.  Returns the mutated context
together with the success flag. -/
def CreateCallbackAndPromise (retainOk : Bool) (argc maxCount : Nat)
    (lastIsCallable : Bool) (c : CfCtx) : CfCtx × Bool :=
  let c1 := { c with asyncType := GetAsyncType argc maxCount lastIsCallable }
  if c1.asyncType = AsyncType.callback then
    if retainOk then ({ c1 with callback := some () }, true) else (c1, false)
  else
    ({ c1 with deferred := some (), promise := some () }, true)

/-- GetEncodedExecute: mallocs an encoding blob (outcome `mallocOk`),
then calls x509Crl->getEncoded (status `ret`, produced bytes `data`),
recording the status 1:1 in errCode with a static message on failure;
the blob is stored in the context either way. -/
def GetEncodedExecute (mallocOk : Bool) (ret : Int) (data : List Nat) (c : CfCtx) : CfCtx :=
  if mallocOk = false then
    { c with errCode := CF_ERR_MALLOC, errMsg := some "malloc encoding blob failed" }
  else
    let c1 := { c with errCode := ret }
    let c2 := if ret ≠ CF_SUCCESS then { c1 with errMsg := some "get encoded failed" } else c1
    { c2 with encoded := some data }

/-- VerifyExecute: calls x509Crl->verify (status `ret`) and records the
status, with a static message on failure. -/
def VerifyExecute (ret : Int) (c : CfCtx) : CfCtx :=
  let c1 := { c with errCode := ret }
  if ret ≠ CF_SUCCESS then { c1 with errMsg := some "verify crl failed" } else c1

/-- GetRevokedCertificatesExecute: mallocs a CfArray (outcome
`mallocOk`), then calls x509Crl->getRevokedCerts (status `ret`, filled
array `arr`); the array struct is stored in the context either way. -/
def GetRevokedCertificatesExecute (mallocOk : Bool) (ret : Int) (arr : CfArray) (c : CfCtx) : CfCtx :=
  if mallocOk = false then
    { c with errCode := CF_ERR_MALLOC, errMsg := some "malloc array failed" }
  else
    let c1 := { c with errCode := ret }
    let c2 := if ret ≠ CF_SUCCESS then { c1 with errMsg := some "get revoked certs failed" } else c1
    { c2 with array := some arr }

/-- CreateX509CrlExecute: calls HcfX509CrlCreate on the encoding blob of the context (status `ret`, produced object `crlPtr`); the out
parameter is written only on success. -/
def CreateX509CrlExecute (ret : Int) (crlPtr : Nat) (c : CfCtx) : CfCtx :=
  let c1 := { c with errCode := ret }
  if ret ≠ CF_SUCCESS then { c1 with errMsg := some "create X509Crl failed" }
  else { c1 with crl := some crlPtr }

/-- GetEncodedComplete: on failure delivers a null result, on success
converts the encoded blob to a napi value and delivers it; both paths
then free the context. -/
def GetEncodedComplete (c : CfCtx) : List Effect :=
  if c.errCode ≠ CF_SUCCESS then
    ReturnResult c NapiValue.null ++ FreeCryptoFwkCtx (some c)
  else
    ReturnResult c (NapiValue.encBlob (c.encoded.getD [])) ++ FreeCryptoFwkCtx (some c)

/-- VerifyComplete: delivers the JS null value and frees the context. -/
def VerifyComplete (c : CfCtx) : List Effect :=
  ReturnResult c NapiValue.null ++ FreeCryptoFwkCtx (some c)

/-- The per-element loop body of GenerateCrlEntryArray: for the element
at global index `i`, a NapiX509CrlEntry wrapper is allocated (outcome
`allocOk i`); on success the entry is wrapped and inserted at index `i`
and the loop continues; on failure a CF_ERR_MALLOC error is thrown, the
entry is destroyed, and the whole function returns null. -/
def wrapCrlEntries (allocOk : Nat → Bool) : Nat → List Nat → Option (List Nat) × List Effect
  | _, [] => (some [], [])
  | i, e :: rest =>
    if allocOk i then
      let r := wrapCrlEntries allocOk (i + 1) rest
      (r.1.map (fun l => e :: l), Effect.wrapEntry e :: r.2)
    else
      (none, [Effect.throwErr (CF_ERR_MALLOC, some "Failed to create a x509CrlEntry class"),
              Effect.objDestroy e])

/-- GenerateCrlEntryArray: returns null for a null array or a zero
count; otherwise wraps the `count` entries read from the backing data in
index order, returning the resulting JS array, or null if some wrapper
allocation failed. -/
def GenerateCrlEntryArray (allocOk : Nat → Bool) (array : Option CfArray) :
    Option NapiValue × List Effect :=
  match array with
  | none => (none, [])
  | some arr =>
    if arr.count = 0 then (none, [])
    else
      let r := wrapCrlEntries allocOk 0 ((List.range arr.count).map (fun i => arr.data.getD i 0))
      (r.1.map NapiValue.entryArray, r.2)

/-- GetRevokedCertificatesComplete: on failure delivers a null result;
on success builds the entry array (which may itself be null) and
delivers it; both paths then free the context. -/
def GetRevokedCertificatesComplete (allocOk : Nat → Bool) (c : CfCtx) : List Effect :=
  if c.errCode ≠ CF_SUCCESS then
    ReturnResult c NapiValue.null ++ FreeCryptoFwkCtx (some c)
  else
    (GenerateCrlEntryArray allocOk c.array).2
    ++ ReturnResult c ((GenerateCrlEntryArray allocOk c.array).1.getD NapiValue.null)
    ++ FreeCryptoFwkCtx (some c)

/-- CreateX509CrlComplete: on native failure delivers a null result; on
success allocates a NapiX509Crl wrapper (outcome `allocOk`): if the
allocation fails the context error fields are set to CF_ERR_MALLOC, the
orphan crl object is destroyed and the error delivered; otherwise the
crl is wrapped and the instance delivered.  All paths free the
context. -/
def CreateX509CrlComplete (allocOk : Bool) (c : CfCtx) : List Effect :=
  if c.errCode ≠ CF_SUCCESS then
    ReturnResult c NapiValue.null ++ FreeCryptoFwkCtx (some c)
  else if allocOk = false then
    let c2 := { c with errCode := CF_ERR_MALLOC, errMsg := some "Failed to create a x509Crl class" }
    Effect.objDestroy (c.crl.getD 0)
      :: (ReturnResult c2 NapiValue.null ++ FreeCryptoFwkCtx (some c2))
  else
    Effect.wrapCrl (c.crl.getD 0)
      :: (ReturnResult c (NapiValue.crlInstance (c.crl.getD 0)) ++ FreeCryptoFwkCtx (some c))

/-- The context as CreateX509CrlComplete leaves it after a wrapper
allocation failure: error fields set to the malloc failure. -/
def createFailCtx (c : CfCtx) : CfCtx :=
  { c with errCode := CF_ERR_MALLOC, errMsg := some "Failed to create a x509Crl class" }

def ARGS_SIZE_ONE : Nat := 1

def ARGS_SIZE_TWO : Nat := 2

/-- NapiX509Crl::GetEncoded entry point.  `checkOk` is the outcome of
CertCheckArgsCount, `mallocCtxOk` of the context allocation, `retainOk`
of callback retention.  Returns the napi value given back to the caller
and the trace of effects up to the return. -/
def GetEncoded (checkOk mallocCtxOk : Bool) (argc : Nat) (lastIsCallable retainOk : Bool) :
    Option NapiValue × List Effect :=
  if checkOk = false then (none, [])
  else if mallocCtxOk = false then (none, [])
  else
    let c0 : CfCtx := { crlClass := some 0 }
    let r := CreateCallbackAndPromise retainOk argc ARGS_SIZE_ONE lastIsCallable c0
    if r.2 = false then (none, FreeCryptoFwkCtx (some r.1))
    else
      let c1 := { r.1 with asyncWork := some () }
      (if c1.asyncType = AsyncType.promise then some NapiValue.promiseVal else some NapiValue.null,
       [Effect.queueWork])

/-- NapiX509Crl::Verify entry point.  `pubKeyOk` is the outcome of
unwrapping the public key argument. -/
def Verify (checkOk pubKeyOk mallocCtxOk : Bool) (argc : Nat) (lastIsCallable retainOk : Bool) :
    Option NapiValue × List Effect :=
  if checkOk = false then (none, [])
  else if pubKeyOk = false then
    (none, [Effect.throwErr (CF_INVALID_PARAMS, some "public key is null")])
  else if mallocCtxOk = false then (none, [])
  else
    let c0 : CfCtx := { pubKey := some 0, crlClass := some 0 }
    let r := CreateCallbackAndPromise retainOk argc ARGS_SIZE_TWO lastIsCallable c0
    if r.2 = false then (none, FreeCryptoFwkCtx (some r.1))
    else
      let c1 := { r.1 with asyncWork := some () }
      (if c1.asyncType = AsyncType.promise then some NapiValue.promiseVal else some NapiValue.null,
       [Effect.queueWork])

/-- NapiX509Crl::GetRevokedCertificates entry point. -/
def GetRevokedCertificates (checkOk mallocCtxOk : Bool) (argc : Nat) (lastIsCallable retainOk : Bool) :
    Option NapiValue × List Effect :=
  if checkOk = false then (none, [])
  else if mallocCtxOk = false then (none, [])
  else
    let c0 : CfCtx := { crlClass := some 0 }
    let r := CreateCallbackAndPromise retainOk argc ARGS_SIZE_ONE lastIsCallable c0
    if r.2 = false then (none, FreeCryptoFwkCtx (some r.1))
    else
      let c1 := { r.1 with asyncWork := some () }
      (if c1.asyncType = AsyncType.promise then some NapiValue.promiseVal else some NapiValue.null,
       [Effect.queueWork])

/-- NapiX509Crl::NapiCreateX509Crl entry point.  `blobOk` is the outcome
of GetEncodingBlobFromValue and `blobData` the decoded bytes. -/
def NapiCreateX509Crl (checkOk mallocCtxOk blobOk : Bool) (blobData : List Nat)
    (argc : Nat) (lastIsCallable retainOk : Bool) : Option NapiValue × List Effect :=
  if checkOk = false then (none, [])
  else if mallocCtxOk = false then (none, [])
  else if blobOk = false then (none, FreeCryptoFwkCtx (some {}))
  else
    let c0 : CfCtx := { encodingBlob := some blobData }
    let r := CreateCallbackAndPromise retainOk argc ARGS_SIZE_TWO lastIsCallable c0
    if r.2 = false then (none, FreeCryptoFwkCtx (some r.1))
    else
      let c1 := { r.1 with asyncWork := some () }
      (if c1.asyncType = AsyncType.promise then some NapiValue.promiseVal else some NapiValue.null,
       [Effect.queueWork])

/-- NapiX509Crl::GetRevokedCertificate (synchronous): decodes the serial
number (outcome `serialOk`), calls getRevokedCert (status `ret`, entry
`entryPtr`), then wraps the entry; on wrapper-allocation failure throws
CF_ERR_MALLOC and destroys the entry. -/
def GetRevokedCertificate (checkOk serialOk : Bool) (ret : Int) (entryPtr : Nat) (allocOk : Bool) :
    Option NapiValue × List Effect :=
  if checkOk = false then (none, [])
  else if serialOk = false then (none, [])
  else if ret ≠ CF_SUCCESS then
    (none, [Effect.throwErr (ret, some "get revoked cert failed!")])
  else if allocOk = false then
    (none, [Effect.throwErr (CF_ERR_MALLOC, some "Failed to create a x509CrlEntry class"),
            Effect.objDestroy entryPtr])
  else
    (some (NapiValue.entryInstance entryPtr), [Effect.wrapEntry entryPtr])

/-- NapiX509Crl::GetRevokedCertificateWithCert (synchronous): unwraps
the certificate argument (outcome `certOk`), calls
getRevokedCertWithCert (status `ret`, entry `entryPtr`), then wraps the
entry; on wrapper-allocation failure throws CF_ERR_MALLOC and destroys
the entry. -/
def GetRevokedCertificateWithCert (checkOk certOk : Bool) (ret : Int) (entryPtr : Nat)
    (allocOk : Bool) : Option NapiValue × List Effect :=
  if checkOk = false then (none, [])
  else if certOk = false then
    (none, [Effect.throwErr (CF_INVALID_PARAMS, some "napiX509Cert is null")])
  else if ret ≠ CF_SUCCESS then
    (none, [Effect.throwErr (ret, some "get revoked cert with cert failed!")])
  else if allocOk = false then
    (none, [Effect.throwErr (CF_ERR_MALLOC, some "Failed to create a x509CrlEntry class"),
            Effect.objDestroy entryPtr])
  else
    (some (NapiValue.entryInstance entryPtr), [Effect.wrapEntry entryPtr])

/-- The native CRL object as far as GetTBSCertList and GetSignature
observe it: both call only x509Crl->getSignature, whose outcome is the
status and the produced signature bytes. -/
structure HcfX509Crl where
  getSignatureRet : Int
  getSignatureData : List Nat
deriving DecidableEq

/-- NapiX509Crl::GetTBSCertList: mallocs a blob, calls
x509Crl->getSignature, and returns the converted blob, throwing the
native status with a static message on failure. -/
def GetTBSCertList (mallocOk : Bool) (x509Crl : HcfX509Crl) : Option NapiValue × List Effect :=
  if mallocOk = false then (none, [])
  else if x509Crl.getSignatureRet ≠ CF_SUCCESS then
    (none, [Effect.throwErr (x509Crl.getSignatureRet, some "get tbs info failed")])
  else
    (some (NapiValue.blobVal x509Crl.getSignatureData), [])

/-- NapiX509Crl::GetSignature: mallocs a blob, calls
x509Crl->getSignature, and returns the converted blob, throwing the
native status with a static message on failure. -/
def GetSignature (mallocOk : Bool) (x509Crl : HcfX509Crl) : Option NapiValue × List Effect :=
  if mallocOk = false then (none, [])
  else if x509Crl.getSignatureRet ≠ CF_SUCCESS then
    (none, [Effect.throwErr (x509Crl.getSignatureRet, some "get signature failed")])
  else
    (some (NapiValue.blobVal x509Crl.getSignatureData), [])

/-! Observations over effect traces. -/

/-- Number of occurrences of one effect in a trace. -/
def countEff (e : Effect) : List Effect → Nat
  | [] => 0
  | x :: tr => (if x = e then 1 else 0) + countEff e tr

/-- Effects that deliver the outcome to the caller. -/
def isDelivery : Effect → Bool
  | Effect.callCallback _ _ => true
  | Effect.resolveDeferred _ => true
  | Effect.rejectDeferred _ => true
  | _ => false

/-- Effects that release a context-owned resource or the context. -/
def isReleaseEff : Effect → Bool
  | Effect.deleteAsyncWork => true
  | Effect.deleteReference => true
  | Effect.freeEncodingBlob => true
  | Effect.freeEncoded => true
  | Effect.freeBlob => true
  | Effect.freeArray => true
  | Effect.freeCtx => true
  | _ => false

/-- The delivery events of a trace, in order. -/
def delivEvents (tr : List Effect) : List Effect :=
  tr.filter isDelivery

/-- The native objects a trace destroys, in order. -/
def destroyedObjs (tr : List Effect) : List Nat :=
  tr.filterMap fun e => match e with
    | Effect.objDestroy o => some o
    | _ => none

/-- The CRL entry objects a trace wraps, in order. -/
def wrappedEntries (tr : List Effect) : List Nat :=
  tr.filterMap fun e => match e with
    | Effect.wrapEntry o => some o
    | _ => none

/-- The object-wrap events of a trace (entry wraps and crl wraps). -/
def wrapEvents (tr : List Effect) : List Effect :=
  tr.filter fun e => match e with
    | Effect.wrapEntry _ => true
    | Effect.wrapCrl _ => true
    | _ => false

/-- The successful delivery event for a given mode and value. -/
def successDeliv (mode : AsyncType) (v : NapiValue) : Effect :=
  if mode = AsyncType.callback then Effect.callCallback none v
  else Effect.resolveDeferred v

/-- The failing delivery event for a given mode and business error. -/
def errorDeliv (mode : AsyncType) (err : Int × Option String) : Effect :=
  if mode = AsyncType.callback then Effect.callCallback (some err) NapiValue.null
  else Effect.rejectDeferred err

/-- Every context resource, and the context itself, released exactly
once by the trace: the context free fires once, and each owned handle or
buffer is released once when present and never otherwise. -/
def releasesOnce (tr : List Effect) (c : CfCtx) : Prop :=
  countEff Effect.freeCtx tr = 1 ∧
  countEff Effect.deleteAsyncWork tr = (if c.asyncWork.isSome then 1 else 0) ∧
  countEff Effect.deleteReference tr = (if c.callback.isSome then 1 else 0) ∧
  countEff Effect.freeEncodingBlob tr = (if c.encodingBlob.isSome then 1 else 0) ∧
  countEff Effect.freeEncoded tr = (if c.encoded.isSome then 1 else 0) ∧
  countEff Effect.freeBlob tr = (if c.blob.isSome then 1 else 0) ∧
  countEff Effect.freeArray tr = (if c.array.isSome then 1 else 0)

/-- The shape required of the one delivery event of an invocation: in
callback mode a single callback invocation that carries either no error
(success, with the value) or an error with a null value; in promise mode
a single settlement, a resolve or a reject. -/
def deliveryShape (mode : AsyncType) (e : Effect) : Prop :=
  match mode, e with
  | AsyncType.callback, Effect.callCallback err v => err = none ∨ v = NapiValue.null
  | AsyncType.promise, Effect.resolveDeferred _ => True
  | AsyncType.promise, Effect.rejectDeferred _ => True
  | _, _ => False

/-- The completion handle fields of the context are untouched: same
mode, promise, callback, deferred and async work handle. -/
def completionUnchanged (c1 c2 : CfCtx) : Prop :=
  c2.asyncType = c1.asyncType ∧ c2.promise = c1.promise ∧ c2.callback = c1.callback ∧
  c2.deferred = c1.deferred ∧ c2.asyncWork = c1.asyncWork

/-- The input fields of the context are untouched. -/
def inputsUnchanged (c1 c2 : CfCtx) : Prop :=
  c2.encodingBlob = c1.encodingBlob ∧ c2.crlClass = c1.crlClass ∧
  c2.certificate = c1.certificate ∧ c2.pubKey = c1.pubKey ∧
  c2.serialNumber = c1.serialNumber ∧ c2.crlEntry = c1.crlEntry

/-- Overwrite exactly the completion handle fields of a context. -/
def withCompletion (a : AsyncType) (p cb d w : Option Unit) (c : CfCtx) : CfCtx :=
  { c with asyncType := a, promise := p, callback := cb, deferred := d, asyncWork := w }

theorem countEff_nil (e : Effect) : countEff e [] = 0 := rfl

theorem countEff_cons (e x : Effect) (tr : List Effect) :
    countEff e (x :: tr) = (if x = e then 1 else 0) + countEff e tr := rfl

theorem countEff_append (e : Effect) (tr1 tr2 : List Effect) :
    countEff e (tr1 ++ tr2) = countEff e tr1 + countEff e tr2 := by
  induction tr1 with
  | nil => simp [countEff]
  | cons x tr ih => simp [countEff, ih]; omega

theorem countEff_eq_zero (e : Effect) (tr : List Effect) (h : ∀ x ∈ tr, x ≠ e) :
    countEff e tr = 0 := by
  induction tr with
  | nil => rfl
  | cons x tr ih =>
    rw [countEff_cons, if_neg (h x (List.mem_cons_self x tr)), ih fun y hy => h y (List.mem_cons_of_mem x hy)]

theorem returnResult_shape (c : CfCtx) (v : NapiValue) :
    ∃ d, ReturnResult c v = [d] ∧ isDelivery d = true := by
  unfold ReturnResult ReturnCallbackResult ReturnPromiseResult
  split_ifs <;> exact ⟨_, rfl, rfl⟩

theorem returnResult_delivery (c : CfCtx) (v : NapiValue) :
    ∀ x ∈ ReturnResult c v, isDelivery x = true := by
  intro x hx
  obtain ⟨d, hd, hdel⟩ := returnResult_shape c v
  rw [hd, List.mem_singleton] at hx
  rw [hx]; exact hdel

theorem release_not_delivery (x e : Effect) (hx : isDelivery x = true)
    (he : isReleaseEff e = true) : x ≠ e := by
  intro h
  rw [h] at hx
  cases e <;> simp [isDelivery] at hx <;> simp [isReleaseEff] at he

theorem countEff_returnResult_release (c : CfCtx) (v : NapiValue) (e : Effect)
    (he : isReleaseEff e = true) : countEff e (ReturnResult c v) = 0 :=
  countEff_eq_zero e _ fun x hx => release_not_delivery x e (returnResult_delivery c v x hx) he

/-- FreeCryptoFwkCtx releases each present resource once and the context
once. -/
theorem free_releasesOnce (c : CfCtx) : releasesOnce (FreeCryptoFwkCtx (some c)) c := by
  unfold releasesOnce FreeCryptoFwkCtx
  refine ⟨?_, ?_, ?_, ?_, ?_, ?_, ?_⟩ <;>
    · simp only [countEff_append]
      split_ifs <;> simp [countEff]

theorem releasesOnce_prepend (tr1 tr2 : List Effect) (c : CfCtx)
    (h : ∀ x ∈ tr1, isReleaseEff x = false) (h2 : releasesOnce tr2 c) :
    releasesOnce (tr1 ++ tr2) c := by
  have hz : ∀ e : Effect, isReleaseEff e = true → countEff e tr1 = 0 := by
    intro e he
    refine countEff_eq_zero e tr1 fun x hx => ?_
    intro hxe
    rw [hxe] at hx
    rw [h e hx] at he
    exact Bool.false_ne_true he
  obtain ⟨h1, hA, hB, hC, hD, hE, hF⟩ := h2
  refine ⟨?_, ?_, ?_, ?_, ?_, ?_, ?_⟩ <;>
    rw [countEff_append]
  · rw [hz Effect.freeCtx rfl]; omega
  · rw [hz Effect.deleteAsyncWork rfl]; omega
  · rw [hz Effect.deleteReference rfl]; omega
  · rw [hz Effect.freeEncodingBlob rfl]; omega
  · rw [hz Effect.freeEncoded rfl]; omega
  · rw [hz Effect.freeBlob rfl]; omega
  · rw [hz Effect.freeArray rfl]; omega

theorem releasesOnce_cons (x : Effect) (tr : List Effect) (c : CfCtx)
    (hx : isReleaseEff x = false) (h : releasesOnce tr c) : releasesOnce (x :: tr) c := by
  have hmem : ∀ y ∈ [x], isReleaseEff y = false := by
    intro y hy
    rw [List.mem_singleton] at hy
    rw [hy]; exact hx
  simpa using releasesOnce_prepend [x] tr c hmem h

theorem returnResult_not_release (c : CfCtx) (v : NapiValue) :
    ∀ x ∈ ReturnResult c v, isReleaseEff x = false := by
  intro x hx
  have hd := returnResult_delivery c v x hx
  cases x <;> simp [isDelivery] at hd <;> rfl

theorem wrapCrlEntries_not_release (f : Nat → Bool) (es : List Nat) :
    ∀ (i : Nat), ∀ x ∈ (wrapCrlEntries f i es).2, isReleaseEff x = false := by
  induction es with
  | nil => intro i x hx; simp [wrapCrlEntries] at hx
  | cons e rest ih =>
    intro i x hx
    by_cases h : f i
    · simp only [wrapCrlEntries, h, if_true, List.mem_cons] at hx
      rcases hx with hx | hx
      · rw [hx]; rfl
      · exact ih (i + 1) x hx
    · simp only [wrapCrlEntries, h, if_false, List.mem_cons, Bool.false_eq_true,
        List.mem_singleton, List.not_mem_nil] at hx
      rcases hx with hx | hx | hx
      · rw [hx]; rfl
      · rw [hx]; rfl
      · exact absurd hx (by simp)

theorem generateCrlEntryArray_not_release (f : Nat → Bool) (a : Option CfArray) :
    ∀ x ∈ (GenerateCrlEntryArray f a).2, isReleaseEff x = false := by
  intro x hx
  unfold GenerateCrlEntryArray at hx
  match a with
  | none => simp at hx
  | some arr =>
    simp only at hx
    split_ifs at hx
    · simp at hx
    · exact wrapCrlEntries_not_release f _ 0 x hx

/-- C1: for every asynchronous invocation (getEncoded, verify,
getRevokedCerts, createX509Crl), the completion dispatcher releases the
context and every resource it owns (async work handle, callback
reference, encoding blobs, blob, array) exactly once via
FreeCryptoFwkCtx, on the success path, the native failure path and the
wrap failure path alike: the release is never skipped and never done
twice. -/
theorem ctx_released_exactly_once (c : CfCtx) (f : Nat → Bool) (b : Bool) :
    releasesOnce (GetEncodedComplete c) c ∧
    releasesOnce (VerifyComplete c) c ∧
    releasesOnce (GetRevokedCertificatesComplete f c) c ∧
    releasesOnce (CreateX509CrlComplete b c) c := by
  have hfreeEq : ∀ cErr cMsg,
      releasesOnce (FreeCryptoFwkCtx (some { c with errCode := cErr, errMsg := cMsg })) c := by
    intro cErr cMsg
    have := free_releasesOnce { c with errCode := cErr, errMsg := cMsg }
    simpa [releasesOnce] using this
  refine ⟨?_, ?_, ?_, ?_⟩
  · unfold GetEncodedComplete
    split_ifs <;>
      exact releasesOnce_prepend _ _ c (returnResult_not_release c _) (free_releasesOnce c)
  · unfold VerifyComplete
    exact releasesOnce_prepend _ _ c (returnResult_not_release c _) (free_releasesOnce c)
  · unfold GetRevokedCertificatesComplete
    split_ifs
    · exact releasesOnce_prepend _ _ c (returnResult_not_release c _) (free_releasesOnce c)
    · rw [List.append_assoc]
      refine releasesOnce_prepend _ _ c (generateCrlEntryArray_not_release f c.array) ?_
      exact releasesOnce_prepend _ _ c (returnResult_not_release c _) (free_releasesOnce c)
  · unfold CreateX509CrlComplete
    split_ifs
    · exact releasesOnce_prepend _ _ c (returnResult_not_release c _) (free_releasesOnce c)
    · refine releasesOnce_cons _ _ c rfl ?_
      exact releasesOnce_prepend _ _ c (returnResult_not_release _ _) (hfreeEq _ _)
    · refine releasesOnce_cons _ _ c rfl ?_
      exact releasesOnce_prepend _ _ c (returnResult_not_release _ _) (free_releasesOnce c)

/-! Helper lemmas on delivery events. -/

theorem delivEvents_append (a b : List Effect) :
    delivEvents (a ++ b) = delivEvents a ++ delivEvents b := by
  simp [delivEvents]

theorem delivEvents_cons_nondeliv (x : Effect) (tr : List Effect) (hx : isDelivery x = false) :
    delivEvents (x :: tr) = delivEvents tr := by
  simp [delivEvents, List.filter_cons, hx]

theorem delivEvents_free (c : CfCtx) : delivEvents (FreeCryptoFwkCtx (some c)) = [] := by
  simp only [FreeCryptoFwkCtx]
  split_ifs <;> rfl

theorem delivEvents_returnResult (c : CfCtx) (v : NapiValue) :
    delivEvents (ReturnResult c v) = ReturnResult c v := by
  unfold ReturnResult ReturnCallbackResult ReturnPromiseResult
  split_ifs <;> rfl

theorem delivEvents_wrapCrlEntries (f : Nat → Bool) (es : List Nat) :
    ∀ i : Nat, delivEvents (wrapCrlEntries f i es).2 = [] := by
  induction es with
  | nil => intro i; rfl
  | cons e rest ih =>
    intro i
    cases h : f i
    · simp [wrapCrlEntries, h, delivEvents, isDelivery]
    · simp only [wrapCrlEntries, h, if_true]
      rw [delivEvents_cons_nondeliv (Effect.wrapEntry e) _ rfl]
      exact ih (i + 1)

theorem delivEvents_generateCrlEntryArray (f : Nat → Bool) (a : Option CfArray) :
    delivEvents (GenerateCrlEntryArray f a).2 = [] := by
  match a with
  | none => rfl
  | some arr =>
    simp only [GenerateCrlEntryArray]
    split_ifs
    · rfl
    · exact delivEvents_wrapCrlEntries f _ 0

theorem returnResult_delivered_once (c : CfCtx) (v : NapiValue)
    (hv : c.errCode ≠ CF_SUCCESS → v = NapiValue.null) :
    ∃ e, delivEvents (ReturnResult c v) = [e] ∧ deliveryShape c.asyncType e := by
  rw [delivEvents_returnResult]
  by_cases hmode : c.asyncType = AsyncType.callback
  · by_cases herr : c.errCode = CF_SUCCESS
    · refine ⟨Effect.callCallback none v, ?_, ?_⟩
      · unfold ReturnResult ReturnCallbackResult
        rw [if_pos hmode]
        simp [herr]
      · rw [hmode]
        exact Or.inl rfl
    · refine ⟨Effect.callCallback (some (businessErr c)) v, ?_, ?_⟩
      · unfold ReturnResult ReturnCallbackResult
        rw [if_pos hmode]
        simp [herr]
      · rw [hmode]
        exact Or.inr (hv herr)
  · have hm : c.asyncType = AsyncType.promise := by
      cases hx : c.asyncType
      · exact absurd hx hmode
      · rfl
    by_cases herr : c.errCode = CF_SUCCESS
    · refine ⟨Effect.resolveDeferred v, ?_, ?_⟩
      · unfold ReturnResult ReturnPromiseResult
        rw [if_neg hmode, if_pos herr]
      · rw [hm]
        exact trivial
    · refine ⟨Effect.rejectDeferred (businessErr c), ?_, ?_⟩
      · unfold ReturnResult ReturnPromiseResult
        rw [if_neg hmode, if_neg herr]
      · rw [hm]
        exact trivial

/-- C3: delivery happens exactly once per scheduled invocation.  For
each completion dispatcher, over every context and every wrap oracle,
the trace contains exactly one delivery event; in callback mode it is a
single callback invocation with either (null error, value) or (error,
null value); in promise mode it is a single settlement of the deferred,
a resolve or a reject, never both. -/
theorem delivery_exactly_once (c : CfCtx) (f : Nat → Bool) (b : Bool) :
    (∃ e, delivEvents (GetEncodedComplete c) = [e] ∧ deliveryShape c.asyncType e) ∧
    (∃ e, delivEvents (VerifyComplete c) = [e] ∧ deliveryShape c.asyncType e) ∧
    (∃ e, delivEvents (GetRevokedCertificatesComplete f c) = [e] ∧ deliveryShape c.asyncType e) ∧
    (∃ e, delivEvents (CreateX509CrlComplete b c) = [e] ∧ deliveryShape c.asyncType e) := by
  refine ⟨?_, ?_, ?_, ?_⟩
  · unfold GetEncodedComplete
    split_ifs with h
    · rw [delivEvents_append, delivEvents_free, List.append_nil]
      exact returnResult_delivered_once c _ fun _ => rfl
    · rw [delivEvents_append, delivEvents_free, List.append_nil]
      exact returnResult_delivered_once c _ fun hc => absurd hc h
  · unfold VerifyComplete
    rw [delivEvents_append, delivEvents_free, List.append_nil]
    exact returnResult_delivered_once c _ fun _ => rfl
  · unfold GetRevokedCertificatesComplete
    split_ifs with h
    · rw [delivEvents_append, delivEvents_free, List.append_nil]
      exact returnResult_delivered_once c _ fun _ => rfl
    · rw [delivEvents_append, delivEvents_append, delivEvents_generateCrlEntryArray,
        delivEvents_free, List.append_nil, List.nil_append]
      exact returnResult_delivered_once c _ fun hc => absurd hc h
  · unfold CreateX509CrlComplete
    split_ifs with h hb
    · rw [delivEvents_append, delivEvents_free, List.append_nil]
      exact returnResult_delivered_once c _ fun _ => rfl
    · rw [delivEvents_cons_nondeliv (Effect.objDestroy (c.crl.getD 0)) _ rfl,
        delivEvents_append, delivEvents_free, List.append_nil]
      exact returnResult_delivered_once _ NapiValue.null fun _ => rfl
    · rw [delivEvents_cons_nondeliv (Effect.wrapCrl (c.crl.getD 0)) _ rfl,
        delivEvents_append, delivEvents_free, List.append_nil]
      exact returnResult_delivered_once c _ fun hc => absurd hc h

/-- C2: the completion mode selection.  When the actual argument count
equals the maximum expected count and the final argument is a callable,
the mode is Callback and the callable is retained as the callback
reference (when retention succeeds); for every other arity, the mode is
Promise and the promise plus its deferred settlement handle are created
before CreateCallbackAndPromise returns. -/
theorem completion_mode_selection (argc maxCount : Nat) (lastIsCallable retainOk : Bool) (c : CfCtx) :
    (argc = maxCount ∧ lastIsCallable = true →
      (CreateCallbackAndPromise retainOk argc maxCount lastIsCallable c).1.asyncType
        = AsyncType.callback ∧
      (retainOk = true →
        (CreateCallbackAndPromise retainOk argc maxCount lastIsCallable c).2 = true ∧
        (CreateCallbackAndPromise retainOk argc maxCount lastIsCallable c).1.callback
          = some ())) ∧
    (¬(argc = maxCount ∧ lastIsCallable = true) →
      (CreateCallbackAndPromise retainOk argc maxCount lastIsCallable c).1.asyncType
        = AsyncType.promise ∧
      (CreateCallbackAndPromise retainOk argc maxCount lastIsCallable c).2 = true ∧
      (CreateCallbackAndPromise retainOk argc maxCount lastIsCallable c).1.promise = some () ∧
      (CreateCallbackAndPromise retainOk argc maxCount lastIsCallable c).1.deferred
        = some ()) := by
  constructor
  · intro hcb
    unfold CreateCallbackAndPromise GetAsyncType
    rw [if_pos hcb]
    refine ⟨?_, ?_⟩
    · by_cases hr : retainOk <;> simp [hr]
    · intro hr
      simp [hr]
  · intro hcb
    unfold CreateCallbackAndPromise GetAsyncType
    rw [if_neg hcb]
    simp

/-- Witness for C2 at concrete inputs: arity 1 of maximum 1 with a
trailing callable selects Callback and retains it; arity 0 of maximum 1
selects Promise and creates the settlement handles. -/
theorem completion_mode_selection_witness :
    ((CreateCallbackAndPromise true 1 1 true {}).1.asyncType = AsyncType.callback ∧
     (CreateCallbackAndPromise true 1 1 true {}).1.callback = some ()) ∧
    ((CreateCallbackAndPromise true 0 1 true {}).1.asyncType = AsyncType.promise ∧
     (CreateCallbackAndPromise true 0 1 true {}).1.promise = some () ∧
     (CreateCallbackAndPromise true 0 1 true {}).1.deferred = some ()) := by
  constructor
  · obtain ⟨h1, h2⟩ := (completion_mode_selection 1 1 true true {}).1 ⟨rfl, rfl⟩
    exact ⟨h1, (h2 rfl).2⟩
  · obtain ⟨h1, _, h3, h4⟩ := (completion_mode_selection 0 1 true true {}).2 (by simp)
    exact ⟨h1, h3, h4⟩

/-- C10: getTbsInfo (NapiX509Crl::GetTBSCertList) and getSignature
(NapiX509Crl::GetSignature) both invoke the same underlying native
function, x509Crl->getSignature, and return identical napi values for
every CRL object, every allocation outcome and every native outcome:
getTbsInfo never returns a to-be-signed portion distinct from the
signature. -/
theorem tbs_info_equals_signature (mallocOk : Bool) (x509Crl : HcfX509Crl) :
    (GetTBSCertList mallocOk x509Crl).1 = (GetSignature mallocOk x509Crl).1 := by
  unfold GetTBSCertList GetSignature
  split_ifs <;> rfl

/-! Helper lemmas on destruction and wrap observations. -/

theorem destroyedObjs_append (a b : List Effect) :
    destroyedObjs (a ++ b) = destroyedObjs a ++ destroyedObjs b := by
  simp [destroyedObjs]

theorem wrappedEntries_append (a b : List Effect) :
    wrappedEntries (a ++ b) = wrappedEntries a ++ wrappedEntries b := by
  simp [wrappedEntries]

theorem destroyedObjs_free (c : CfCtx) : destroyedObjs (FreeCryptoFwkCtx (some c)) = [] := by
  simp only [FreeCryptoFwkCtx]
  split_ifs <;> rfl

theorem wrappedEntries_free (c : CfCtx) : wrappedEntries (FreeCryptoFwkCtx (some c)) = [] := by
  simp only [FreeCryptoFwkCtx]
  split_ifs <;> rfl

theorem destroyedObjs_returnResult (c : CfCtx) (v : NapiValue) :
    destroyedObjs (ReturnResult c v) = [] := by
  unfold ReturnResult ReturnCallbackResult ReturnPromiseResult
  split_ifs <;> rfl

theorem wrappedEntries_returnResult (c : CfCtx) (v : NapiValue) :
    wrappedEntries (ReturnResult c v) = [] := by
  unfold ReturnResult ReturnCallbackResult ReturnPromiseResult
  split_ifs <;> rfl

theorem countEff_free_throw (c : CfCtx) (err : Int × Option String) :
    countEff (Effect.throwErr err) (FreeCryptoFwkCtx (some c)) = 0 := by
  simp only [FreeCryptoFwkCtx]
  split_ifs <;> simp [countEff]

theorem countEff_returnResult_throw (c : CfCtx) (v : NapiValue) (err : Int × Option String) :
    countEff (Effect.throwErr err) (ReturnResult c v) = 0 := by
  unfold ReturnResult ReturnCallbackResult ReturnPromiseResult
  split_ifs <;> simp [countEff]

theorem wrappedEntries_map_wrapEntry (l : List Nat) :
    wrappedEntries (l.map Effect.wrapEntry) = l := by
  induction l with
  | nil => rfl
  | cons a l ih => simp [wrappedEntries] at ih ⊢; exact ih

theorem destroyedObjs_map_wrapEntry (l : List Nat) :
    destroyedObjs (l.map Effect.wrapEntry) = [] := by
  induction l with
  | nil => rfl
  | cons a l ih => simp [destroyedObjs]

theorem countEff_map_wrapEntry_throw (l : List Nat) (err : Int × Option String) :
    countEff (Effect.throwErr err) (l.map Effect.wrapEntry) = 0 := by
  induction l with
  | nil => rfl
  | cons a l ih => simp [countEff] at ih ⊢; exact ih

theorem range_map_getD (l : List Nat) :
    (List.range l.length).map (fun i => l.getD i 0) = l := by
  induction l with
  | nil => rfl
  | cons a l ih =>
    rw [List.length_cons, List.range_succ_eq_map, List.map_cons, List.map_map]
    simp only [List.getD_cons_zero, Function.comp_def, List.getD_cons_succ]
    rw [ih]

theorem wrapCrlEntries_all_ok (f : Nat → Bool) (es : List Nat) :
    ∀ i : Nat, (∀ j, f j = true) →
      wrapCrlEntries f i es = (some es, es.map Effect.wrapEntry) := by
  induction es with
  | nil => intro i _; rfl
  | cons e rest ih =>
    intro i hf
    simp [wrapCrlEntries, hf i, ih (i + 1) hf]

theorem generateCrlEntryArray_all_ok (f : Nat → Bool) (arr : CfArray)
    (hwf : arr.count = arr.data.length) (hpos : 1 ≤ arr.count) (hf : ∀ j, f j = true) :
    GenerateCrlEntryArray f (some arr)
      = (some (NapiValue.entryArray arr.data), arr.data.map Effect.wrapEntry) := by
  simp only [GenerateCrlEntryArray]
  rw [if_neg (by omega), hwf, range_map_getD, wrapCrlEntries_all_ok f arr.data 0 hf]
  rfl

theorem returnResult_success (c : CfCtx) (v : NapiValue) (h : c.errCode = CF_SUCCESS) :
    ReturnResult c v = [successDeliv c.asyncType v] := by
  unfold ReturnResult ReturnCallbackResult ReturnPromiseResult successDeliv
  split_ifs <;> simp_all

theorem returnResult_error_null (c : CfCtx) (h : c.errCode ≠ CF_SUCCESS) :
    ReturnResult c NapiValue.null = [errorDeliv c.asyncType (businessErr c)] := by
  unfold ReturnResult ReturnCallbackResult ReturnPromiseResult errorDeliv
  split_ifs <;> simp_all

/-- C4: for a getRevokedCerts result backed by a native array of N
elements with N at least 1 (and every wrapper allocation succeeding),
the delivered value is the array of exactly those N entries in original
index order and each entry is independently wrapped; when the count is
zero or the backing array pointer is null, delivery yields the explicit
null indicator instead of an empty sequence. -/
theorem revoked_certs_array_shape (c : CfCtx) (arr : CfArray) (f : Nat → Bool) :
    (c.errCode = CF_SUCCESS → c.array = some arr → arr.count = arr.data.length →
      1 ≤ arr.count → (∀ j, f j = true) →
      delivEvents (GetRevokedCertificatesComplete f c)
        = [successDeliv c.asyncType (NapiValue.entryArray arr.data)] ∧
      wrappedEntries (GetRevokedCertificatesComplete f c) = arr.data) ∧
    (c.errCode = CF_SUCCESS → (c.array = none ∨ (c.array = some arr ∧ arr.count = 0)) →
      delivEvents (GetRevokedCertificatesComplete f c)
        = [successDeliv c.asyncType NapiValue.null]) := by
  constructor
  · intro h0 h1 hwf hpos hf
    unfold GetRevokedCertificatesComplete
    rw [if_neg (fun hx => hx h0), h1, generateCrlEntryArray_all_ok f arr hwf hpos hf]
    constructor
    · rw [delivEvents_append, delivEvents_append, delivEvents_free, List.append_nil]
      have hg : delivEvents (arr.data.map Effect.wrapEntry) = [] := by
        have := delivEvents_generateCrlEntryArray f (some arr)
        rwa [generateCrlEntryArray_all_ok f arr hwf hpos hf] at this
      rw [hg, List.nil_append, delivEvents_returnResult]
      exact returnResult_success c _ h0
    · rw [wrappedEntries_append, wrappedEntries_append, wrappedEntries_free,
        List.append_nil, wrappedEntries_map_wrapEntry, wrappedEntries_returnResult,
        List.append_nil]
  · intro h0 h1
    unfold GetRevokedCertificatesComplete
    rw [if_neg (fun hx => hx h0)]
    rcases h1 with h1 | ⟨h1, h2⟩
    · rw [h1]
      have hg : GenerateCrlEntryArray f none = (none, []) := rfl
      rw [hg, delivEvents_append, delivEvents_append, delivEvents_free, List.append_nil]
      simp only [List.nil_append, Option.getD_none]
      rw [delivEvents_returnResult]
      exact returnResult_success c _ h0
    · rw [h1]
      have hg : GenerateCrlEntryArray f (some arr) = (none, []) := by
        simp only [GenerateCrlEntryArray]
        rw [if_pos h2]
      rw [hg, delivEvents_append, delivEvents_append, delivEvents_free, List.append_nil]
      simp only [List.nil_append, Option.getD_none]
      rw [delivEvents_returnResult]
      exact returnResult_success c _ h0

/-- Witness for C4: a two element array with all wraps succeeding is
delivered in order as a two element JS array, and an empty array is
delivered as null. -/
theorem revoked_certs_array_shape_witness :
    (delivEvents (GetRevokedCertificatesComplete (fun _ => true)
        { asyncType := AsyncType.promise, errCode := 0, array := some (CfArray.mk 2 [5, 6]) })
      = [Effect.resolveDeferred (NapiValue.entryArray [5, 6])] ∧
     wrappedEntries (GetRevokedCertificatesComplete (fun _ => true)
        { asyncType := AsyncType.promise, errCode := 0, array := some (CfArray.mk 2 [5, 6]) })
      = [5, 6]) ∧
    delivEvents (GetRevokedCertificatesComplete (fun _ => true)
        { asyncType := AsyncType.promise, errCode := 0, array := some (CfArray.mk 0 []) })
      = [Effect.resolveDeferred NapiValue.null] := by
  constructor
  · exact (revoked_certs_array_shape
      { asyncType := AsyncType.promise, errCode := 0, array := some (CfArray.mk 2 [5, 6]) }
      (CfArray.mk 2 [5, 6]) (fun _ => true)).1 rfl rfl rfl (by decide) (fun _ => rfl)
  · exact (revoked_certs_array_shape
      { asyncType := AsyncType.promise, errCode := 0, array := some (CfArray.mk 0 []) }
      (CfArray.mk 0 []) (fun _ => true)).2 rfl (Or.inr ⟨rfl, rfl⟩)

theorem delivEvents_map_wrapEntry (l : List Nat) :
    delivEvents (l.map Effect.wrapEntry) = [] := by
  induction l with
  | nil => rfl
  | cons a l ih => simp [delivEvents, isDelivery]

/-- C5 counterexample: with a two element native array (entries 5 and 6)
and every wrapper allocation failing, the dispatcher destroys only entry
5 (the failing element), does not destroy the remaining entry 6, and
delivers a success (a resolve with the null value) rather than an
error. -/
theorem revoked_wrap_failure_counterexample :
    destroyedObjs (GetRevokedCertificatesComplete (fun _ => false)
        { asyncType := AsyncType.promise, errCode := 0, array := some (CfArray.mk 2 [5, 6]) })
      = [5] ∧
    ¬ (6 ∈ destroyedObjs (GetRevokedCertificatesComplete (fun _ => false)
        { asyncType := AsyncType.promise, errCode := 0, array := some (CfArray.mk 2 [5, 6]) })) ∧
    delivEvents (GetRevokedCertificatesComplete (fun _ => false)
        { asyncType := AsyncType.promise, errCode := 0, array := some (CfArray.mk 2 [5, 6]) })
      = [Effect.resolveDeferred NapiValue.null] := by
  decide

theorem wrapCrlEntries_firstFail (f : Nat → Bool) :
    ∀ (es : List Nat) (i k : Nat), k < es.length →
      (∀ j, j < k → f (i + j) = true) → f (i + k) = false →
      wrapCrlEntries f i es =
        (none, (es.take k).map Effect.wrapEntry
          ++ [Effect.throwErr (CF_ERR_MALLOC, some "Failed to create a x509CrlEntry class"),
              Effect.objDestroy (es.getD k 0)]) := by
  intro es
  induction es with
  | nil =>
    intro i k hk _ _
    simp at hk
  | cons e rest ih =>
    intro i k hk hpre hfail
    cases k with
    | zero =>
      have h0 : f i = false := by simpa using hfail
      simp [wrapCrlEntries, h0]
    | succ k =>
      have hfi : f i = true := by
        have := hpre 0 (Nat.succ_pos k)
        simpa using this
      have hrec := ih (i + 1) k (by simpa using hk)
        (fun j hj => by
          have hj2 := hpre (j + 1) (by omega)
          have heq : i + (j + 1) = i + 1 + j := by omega
          rwa [heq] at hj2)
        (by
          have heq : i + (k + 1) = i + 1 + k := by omega
          rwa [heq] at hfail)
      simp only [wrapCrlEntries, hfi, if_true, hrec]
      simp

/-- C5 amended: when the wrap step fails first at element index k of a
getRevokedCerts result, the dispatcher destroys exactly the native object of that element and no other
native object, throws a CF_ERR_MALLOC error, leaves the objects of the
elements before k to their wrappers and does not destroy the objects of
the elements after k, and then delivers a success completion whose value
is the null indicator rather than an error. -/
theorem revoked_wrap_failure_amended (c : CfCtx) (arr : CfArray) (f : Nat → Bool) (k : Nat)
    (h0 : c.errCode = CF_SUCCESS) (h1 : c.array = some arr)
    (hwf : arr.count = arr.data.length) (h3 : k < arr.count)
    (h4 : ∀ j, j < k → f j = true) (h5 : f k = false) :
    destroyedObjs (GetRevokedCertificatesComplete f c) = [arr.data.getD k 0] ∧
    wrappedEntries (GetRevokedCertificatesComplete f c) = arr.data.take k ∧
    countEff (Effect.throwErr (CF_ERR_MALLOC, some "Failed to create a x509CrlEntry class"))
      (GetRevokedCertificatesComplete f c) = 1 ∧
    delivEvents (GetRevokedCertificatesComplete f c)
      = [successDeliv c.asyncType NapiValue.null] := by
  have hk : k < arr.data.length := by omega
  have hgen : GenerateCrlEntryArray f (some arr)
      = (none, (arr.data.take k).map Effect.wrapEntry
          ++ [Effect.throwErr (CF_ERR_MALLOC, some "Failed to create a x509CrlEntry class"),
              Effect.objDestroy (arr.data.getD k 0)]) := by
    simp only [GenerateCrlEntryArray]
    rw [if_neg (by omega), hwf, range_map_getD,
      wrapCrlEntries_firstFail f arr.data 0 k hk
        (fun j hj => by simpa using h4 j hj) (by simpa using h5)]
    rfl
  refine ⟨?_, ?_, ?_, ?_⟩
  · unfold GetRevokedCertificatesComplete
    rw [if_neg (fun hx => hx h0), h1, hgen]
    simp only [destroyedObjs_append, destroyedObjs_map_wrapEntry, destroyedObjs_returnResult,
      destroyedObjs_free, List.append_nil, List.nil_append]
    rfl
  · unfold GetRevokedCertificatesComplete
    rw [if_neg (fun hx => hx h0), h1, hgen]
    simp only [wrappedEntries_append, wrappedEntries_map_wrapEntry, wrappedEntries_returnResult,
      wrappedEntries_free, List.append_nil]
    have h2 : wrappedEntries
        [Effect.throwErr (CF_ERR_MALLOC, some "Failed to create a x509CrlEntry class"),
         Effect.objDestroy (arr.data.getD k 0)] = [] := rfl
    rw [h2, List.append_nil]
  · unfold GetRevokedCertificatesComplete
    rw [if_neg (fun hx => hx h0), h1, hgen]
    simp only [countEff_append, countEff_map_wrapEntry_throw, countEff_returnResult_throw,
      countEff_free_throw, Nat.add_zero, Nat.zero_add]
    simp [countEff]
  · unfold GetRevokedCertificatesComplete
    rw [if_neg (fun hx => hx h0), h1, hgen]
    simp only [delivEvents_append, delivEvents_map_wrapEntry, delivEvents_free,
      List.append_nil, List.nil_append]
    have h2 : delivEvents
        [Effect.throwErr (CF_ERR_MALLOC, some "Failed to create a x509CrlEntry class"),
         Effect.objDestroy (arr.data.getD k 0)] = [] := rfl
    rw [h2, List.nil_append, delivEvents_returnResult]
    simp only [Option.getD_none]
    exact returnResult_success c _ h0

/-- Witness for the amended C5: entries 5 and 6 with the wrap failing
first at index 1 destroy exactly entry 6, wrap entry 5, throw once, and
resolve with null. -/
theorem revoked_wrap_failure_amended_witness :
    destroyedObjs (GetRevokedCertificatesComplete (fun i => decide (i = 0))
        { asyncType := AsyncType.promise, errCode := 0, array := some (CfArray.mk 2 [5, 6]) })
      = [6] ∧
    wrappedEntries (GetRevokedCertificatesComplete (fun i => decide (i = 0))
        { asyncType := AsyncType.promise, errCode := 0, array := some (CfArray.mk 2 [5, 6]) })
      = [5] ∧
    delivEvents (GetRevokedCertificatesComplete (fun i => decide (i = 0))
        { asyncType := AsyncType.promise, errCode := 0, array := some (CfArray.mk 2 [5, 6]) })
      = [Effect.resolveDeferred NapiValue.null] := by
  have h := revoked_wrap_failure_amended
    { asyncType := AsyncType.promise, errCode := 0, array := some (CfArray.mk 2 [5, 6]) }
    (CfArray.mk 2 [5, 6]) (fun i => decide (i = 0)) 1 rfl rfl rfl (by decide)
    (by decide) (by decide)
  exact ⟨h.1, h.2.1, h.2.2.2⟩

theorem wrapEvents_append (a b : List Effect) :
    wrapEvents (a ++ b) = wrapEvents a ++ wrapEvents b := by
  simp [wrapEvents]

theorem wrapEvents_free (c : CfCtx) : wrapEvents (FreeCryptoFwkCtx (some c)) = [] := by
  simp only [FreeCryptoFwkCtx]
  split_ifs <;> rfl

theorem wrapEvents_returnResult (c : CfCtx) (v : NapiValue) :
    wrapEvents (ReturnResult c v) = [] := by
  unfold ReturnResult ReturnCallbackResult ReturnPromiseResult
  split_ifs <;> rfl

theorem countEff_free_queueWork (c : CfCtx) :
    countEff Effect.queueWork (FreeCryptoFwkCtx (some c)) = 0 := by
  simp only [FreeCryptoFwkCtx]
  split_ifs <;> rfl

/-- The observable pieces of a failing dispatch: one error delivery,
no object wrap, one context free. -/
theorem error_dispatch_trace (c : CfCtx) (h : c.errCode ≠ CF_SUCCESS) :
    delivEvents (ReturnResult c NapiValue.null ++ FreeCryptoFwkCtx (some c))
      = [errorDeliv c.asyncType (businessErr c)] ∧
    wrapEvents (ReturnResult c NapiValue.null ++ FreeCryptoFwkCtx (some c)) = [] ∧
    countEff Effect.freeCtx (ReturnResult c NapiValue.null ++ FreeCryptoFwkCtx (some c)) = 1 := by
  refine ⟨?_, ?_, ?_⟩
  · rw [delivEvents_append, delivEvents_free, List.append_nil, delivEvents_returnResult,
      returnResult_error_null c h]
  · rw [wrapEvents_append, wrapEvents_free, wrapEvents_returnResult, List.append_nil]
  · rw [countEff_append, countEff_returnResult_release c _ Effect.freeCtx rfl,
      (free_releasesOnce c).1]

/-- C6: whenever wrapping a successfully produced native object fails
because the wrapper class allocation returns null, the orphaned native
object is destroyed on that same failure path before the operation
returns, the caller observes a CF_ERR_MALLOC error, and the object is
never both wrapped and destroyed: on the success side it is wrapped and
not destroyed.  Holds for getRevokedCert, getRevokedCertWithCert and
the createX509Crl dispatcher. -/
theorem wrap_failure_destroys_native (entryPtr crlPtr : Nat) (c : CfCtx)
    (h0 : c.errCode = CF_SUCCESS) (h1 : c.crl = some crlPtr) :
    ((GetRevokedCertificate true true CF_SUCCESS entryPtr false).1 = none ∧
     destroyedObjs (GetRevokedCertificate true true CF_SUCCESS entryPtr false).2 = [entryPtr] ∧
     wrapEvents (GetRevokedCertificate true true CF_SUCCESS entryPtr false).2 = [] ∧
     countEff (Effect.throwErr (CF_ERR_MALLOC, some "Failed to create a x509CrlEntry class"))
       (GetRevokedCertificate true true CF_SUCCESS entryPtr false).2 = 1 ∧
     (GetRevokedCertificate true true CF_SUCCESS entryPtr true).1
       = some (NapiValue.entryInstance entryPtr) ∧
     destroyedObjs (GetRevokedCertificate true true CF_SUCCESS entryPtr true).2 = [] ∧
     wrappedEntries (GetRevokedCertificate true true CF_SUCCESS entryPtr true).2 = [entryPtr]) ∧
    ((GetRevokedCertificateWithCert true true CF_SUCCESS entryPtr false).1 = none ∧
     destroyedObjs (GetRevokedCertificateWithCert true true CF_SUCCESS entryPtr false).2
       = [entryPtr] ∧
     wrapEvents (GetRevokedCertificateWithCert true true CF_SUCCESS entryPtr false).2 = [] ∧
     countEff (Effect.throwErr (CF_ERR_MALLOC, some "Failed to create a x509CrlEntry class"))
       (GetRevokedCertificateWithCert true true CF_SUCCESS entryPtr false).2 = 1 ∧
     (GetRevokedCertificateWithCert true true CF_SUCCESS entryPtr true).1
       = some (NapiValue.entryInstance entryPtr) ∧
     destroyedObjs (GetRevokedCertificateWithCert true true CF_SUCCESS entryPtr true).2 = [] ∧
     wrappedEntries (GetRevokedCertificateWithCert true true CF_SUCCESS entryPtr true).2
       = [entryPtr]) ∧
    (destroyedObjs (CreateX509CrlComplete false c) = [crlPtr] ∧
     wrapEvents (CreateX509CrlComplete false c) = [] ∧
     delivEvents (CreateX509CrlComplete false c)
       = [errorDeliv c.asyncType (CF_ERR_MALLOC, some "Failed to create a x509Crl class")] ∧
     countEff Effect.freeCtx (CreateX509CrlComplete false c) = 1 ∧
     destroyedObjs (CreateX509CrlComplete true c) = [] ∧
     wrapEvents (CreateX509CrlComplete true c)
       = [Effect.wrapCrl crlPtr]) := by
  have hfail : CreateX509CrlComplete false c
      = Effect.objDestroy crlPtr
        :: (ReturnResult (createFailCtx c) NapiValue.null
          ++ FreeCryptoFwkCtx (some (createFailCtx c))) := by
    unfold CreateX509CrlComplete createFailCtx
    rw [if_neg (fun hx => hx h0), if_pos rfl, h1]
    rfl
  have hok : CreateX509CrlComplete true c
      = Effect.wrapCrl crlPtr
        :: (ReturnResult c (NapiValue.crlInstance crlPtr) ++ FreeCryptoFwkCtx (some c)) := by
    unfold CreateX509CrlComplete
    rw [if_neg (fun hx => hx h0), if_neg (by simp), h1]
    rfl
  have hmallocNe : (createFailCtx c).errCode ≠ CF_SUCCESS := by
    simp [createFailCtx, CF_ERR_MALLOC, CF_SUCCESS]
  refine ⟨⟨rfl, rfl, rfl, by simp [countEff], rfl, rfl, rfl⟩,
    ⟨rfl, rfl, rfl, by simp [countEff], rfl, rfl, rfl⟩, ?_, ?_, ?_, ?_, ?_, ?_⟩
  · rw [hfail]
    have h3 : destroyedObjs (Effect.objDestroy crlPtr
        :: (ReturnResult (createFailCtx c) NapiValue.null
          ++ FreeCryptoFwkCtx (some (createFailCtx c))))
        = crlPtr :: destroyedObjs (ReturnResult (createFailCtx c) NapiValue.null
          ++ FreeCryptoFwkCtx (some (createFailCtx c))) := rfl
    rw [h3, destroyedObjs_append, destroyedObjs_returnResult, destroyedObjs_free]
    rfl
  · rw [hfail]
    have h3 : wrapEvents (Effect.objDestroy crlPtr
        :: (ReturnResult (createFailCtx c) NapiValue.null
          ++ FreeCryptoFwkCtx (some (createFailCtx c))))
        = wrapEvents (ReturnResult (createFailCtx c) NapiValue.null
          ++ FreeCryptoFwkCtx (some (createFailCtx c))) := rfl
    rw [h3, wrapEvents_append, wrapEvents_returnResult, wrapEvents_free]
    rfl
  · rw [hfail, delivEvents_cons_nondeliv (Effect.objDestroy crlPtr) _ rfl]
    exact (error_dispatch_trace (createFailCtx c) hmallocNe).1
  · rw [hfail, countEff_cons]
    have h4 : (if Effect.objDestroy crlPtr = Effect.freeCtx then 1 else 0) = 0 := rfl
    rw [h4, Nat.zero_add]
    exact (error_dispatch_trace (createFailCtx c) hmallocNe).2.2
  · rw [hok]
    have h3 : destroyedObjs (Effect.wrapCrl crlPtr
        :: (ReturnResult c (NapiValue.crlInstance crlPtr) ++ FreeCryptoFwkCtx (some c)))
        = destroyedObjs (ReturnResult c (NapiValue.crlInstance crlPtr)
          ++ FreeCryptoFwkCtx (some c)) := rfl
    rw [h3, destroyedObjs_append, destroyedObjs_returnResult, destroyedObjs_free]
    rfl
  · rw [hok]
    have h3 : wrapEvents (Effect.wrapCrl crlPtr
        :: (ReturnResult c (NapiValue.crlInstance crlPtr) ++ FreeCryptoFwkCtx (some c)))
        = Effect.wrapCrl crlPtr :: wrapEvents (ReturnResult c (NapiValue.crlInstance crlPtr)
          ++ FreeCryptoFwkCtx (some c)) := rfl
    rw [h3, wrapEvents_append, wrapEvents_returnResult, wrapEvents_free]
    rfl

/-- Witness for C6: with entry 7 and crl 3 produced successfully and the
wrapper allocation failing, exactly the orphaned native objects are
destroyed. -/
theorem wrap_failure_destroys_native_witness :
    destroyedObjs (CreateX509CrlComplete false
        { asyncType := AsyncType.promise, errCode := 0, crl := some 3 }) = [3] ∧
    destroyedObjs (GetRevokedCertificate true true CF_SUCCESS 7 false).2 = [7] := by
  have h := wrap_failure_destroys_native 7 3
    { asyncType := AsyncType.promise, errCode := 0, crl := some 3 } rfl rfl
  exact ⟨h.2.2.1, h.1.2.1⟩

theorem getEncodedExecute_fail (r : Int) (data : List Nat) (c : CfCtx) (hr : r ≠ CF_SUCCESS) :
    GetEncodedExecute true r data c
      = { c with errCode := r, errMsg := some "get encoded failed", encoded := some data } := by
  simp [GetEncodedExecute, hr]

theorem verifyExecute_fail (r : Int) (c : CfCtx) (hr : r ≠ CF_SUCCESS) :
    VerifyExecute r c = { c with errCode := r, errMsg := some "verify crl failed" } := by
  simp [VerifyExecute, hr]

theorem getRevokedCertificatesExecute_fail (r : Int) (arr : CfArray) (c : CfCtx)
    (hr : r ≠ CF_SUCCESS) :
    GetRevokedCertificatesExecute true r arr c
      = { c with errCode := r, errMsg := some "get revoked certs failed", array := some arr } := by
  simp [GetRevokedCertificatesExecute, hr]

theorem createX509CrlExecute_fail (r : Int) (crlPtr : Nat) (c : CfCtx) (hr : r ≠ CF_SUCCESS) :
    CreateX509CrlExecute r crlPtr c
      = { c with errCode := r, errMsg := some "create X509Crl failed" } := by
  simp [CreateX509CrlExecute, hr]

theorem getEncodedComplete_error (c : CfCtx) (h : c.errCode ≠ CF_SUCCESS) :
    GetEncodedComplete c = ReturnResult c NapiValue.null ++ FreeCryptoFwkCtx (some c) := by
  unfold GetEncodedComplete
  rw [if_pos h]

theorem getRevokedCertificatesComplete_error (f : Nat → Bool) (c : CfCtx)
    (h : c.errCode ≠ CF_SUCCESS) :
    GetRevokedCertificatesComplete f c
      = ReturnResult c NapiValue.null ++ FreeCryptoFwkCtx (some c) := by
  unfold GetRevokedCertificatesComplete
  rw [if_pos h]

theorem createX509CrlComplete_error (b : Bool) (c : CfCtx) (h : c.errCode ≠ CF_SUCCESS) :
    CreateX509CrlComplete b c = ReturnResult c NapiValue.null ++ FreeCryptoFwkCtx (some c) := by
  unfold CreateX509CrlComplete
  rw [if_pos h]

/-- C7: for every asynchronous invocation whose native call returns a
non-success status r, the worker writes r unchanged into the context
error code together with the static diagnostic message of the operation, and
the dispatcher delivers exactly that (code, message) pair through the
completion surface, with no object wrapped and the context freed. -/
theorem native_failure_propagation (c : CfCtx) (r : Int) (data : List Nat) (arr : CfArray)
    (crlPtr : Nat) (f : Nat → Bool) (b : Bool) (hr : r ≠ CF_SUCCESS) :
    ((GetEncodedExecute true r data c).errCode = r ∧
     (GetEncodedExecute true r data c).errMsg = some "get encoded failed" ∧
     delivEvents (GetEncodedComplete (GetEncodedExecute true r data c))
       = [errorDeliv c.asyncType (r, some "get encoded failed")] ∧
     wrapEvents (GetEncodedComplete (GetEncodedExecute true r data c)) = [] ∧
     countEff Effect.freeCtx (GetEncodedComplete (GetEncodedExecute true r data c)) = 1) ∧
    ((VerifyExecute r c).errCode = r ∧
     (VerifyExecute r c).errMsg = some "verify crl failed" ∧
     delivEvents (VerifyComplete (VerifyExecute r c))
       = [errorDeliv c.asyncType (r, some "verify crl failed")] ∧
     wrapEvents (VerifyComplete (VerifyExecute r c)) = [] ∧
     countEff Effect.freeCtx (VerifyComplete (VerifyExecute r c)) = 1) ∧
    ((GetRevokedCertificatesExecute true r arr c).errCode = r ∧
     (GetRevokedCertificatesExecute true r arr c).errMsg = some "get revoked certs failed" ∧
     delivEvents (GetRevokedCertificatesComplete f (GetRevokedCertificatesExecute true r arr c))
       = [errorDeliv c.asyncType (r, some "get revoked certs failed")] ∧
     wrapEvents (GetRevokedCertificatesComplete f (GetRevokedCertificatesExecute true r arr c))
       = [] ∧
     countEff Effect.freeCtx
       (GetRevokedCertificatesComplete f (GetRevokedCertificatesExecute true r arr c)) = 1) ∧
    ((CreateX509CrlExecute r crlPtr c).errCode = r ∧
     (CreateX509CrlExecute r crlPtr c).errMsg = some "create X509Crl failed" ∧
     delivEvents (CreateX509CrlComplete b (CreateX509CrlExecute r crlPtr c))
       = [errorDeliv c.asyncType (r, some "create X509Crl failed")] ∧
     wrapEvents (CreateX509CrlComplete b (CreateX509CrlExecute r crlPtr c)) = [] ∧
     countEff Effect.freeCtx (CreateX509CrlComplete b (CreateX509CrlExecute r crlPtr c))
       = 1) := by
  refine ⟨?_, ?_, ?_, ?_⟩
  · rw [getEncodedExecute_fail r data c hr]
    have h := error_dispatch_trace
      { c with errCode := r, errMsg := some "get encoded failed", encoded := some data } hr
    rw [getEncodedComplete_error _ hr]
    exact ⟨rfl, rfl, h.1, h.2.1, h.2.2⟩
  · rw [verifyExecute_fail r c hr]
    have h := error_dispatch_trace { c with errCode := r, errMsg := some "verify crl failed" } hr
    unfold VerifyComplete
    exact ⟨rfl, rfl, h.1, h.2.1, h.2.2⟩
  · rw [getRevokedCertificatesExecute_fail r arr c hr]
    have h := error_dispatch_trace
      { c with errCode := r, errMsg := some "get revoked certs failed", array := some arr } hr
    rw [getRevokedCertificatesComplete_error f _ hr]
    exact ⟨rfl, rfl, h.1, h.2.1, h.2.2⟩
  · rw [createX509CrlExecute_fail r crlPtr c hr]
    have h := error_dispatch_trace
      { c with errCode := r, errMsg := some "create X509Crl failed" } hr
    rw [createX509CrlComplete_error b _ hr]
    exact ⟨rfl, rfl, h.1, h.2.1, h.2.2⟩

/-- Witness for C7: the status CF_INVALID_PARAMS with the per operation
static message reaches the promise rejection unchanged. -/
theorem native_failure_propagation_witness :
    delivEvents (GetEncodedComplete (GetEncodedExecute true CF_INVALID_PARAMS []
        { asyncType := AsyncType.promise }))
      = [Effect.rejectDeferred (CF_INVALID_PARAMS, some "get encoded failed")] ∧
    delivEvents (VerifyComplete (VerifyExecute CF_INVALID_PARAMS
        { asyncType := AsyncType.promise }))
      = [Effect.rejectDeferred (CF_INVALID_PARAMS, some "verify crl failed")] ∧
    delivEvents (GetRevokedCertificatesComplete (fun _ => true)
        (GetRevokedCertificatesExecute true CF_INVALID_PARAMS (CfArray.mk 0 [])
          { asyncType := AsyncType.promise }))
      = [Effect.rejectDeferred (CF_INVALID_PARAMS, some "get revoked certs failed")] ∧
    delivEvents (CreateX509CrlComplete true (CreateX509CrlExecute CF_INVALID_PARAMS 0
        { asyncType := AsyncType.promise }))
      = [Effect.rejectDeferred (CF_INVALID_PARAMS, some "create X509Crl failed")] := by
  have h := native_failure_propagation { asyncType := AsyncType.promise } CF_INVALID_PARAMS []
    (CfArray.mk 0 []) 0 (fun _ => true) true (by decide)
  exact ⟨h.1.2.2.1, h.2.1.2.2.1, h.2.2.1.2.2.1, h.2.2.2.2.2.1⟩

/-- C8: when the completion mode is Callback (maximum arity with a
trailing callable) but retaining the callable fails, each entry point
frees the context and returns an immediate failure without queueing any
background work, just like an allocation failure before scheduling. -/
theorem callback_retention_failure_no_schedule (argc1 argc2 : Nat) (lastIsCallable : Bool)
    (blobData : List Nat) (hargc1 : argc1 = ARGS_SIZE_ONE) (hargc2 : argc2 = ARGS_SIZE_TWO)
    (hlic : lastIsCallable = true) :
    ((GetEncoded true true argc1 lastIsCallable false).1 = none ∧
     countEff Effect.queueWork (GetEncoded true true argc1 lastIsCallable false).2 = 0 ∧
     countEff Effect.freeCtx (GetEncoded true true argc1 lastIsCallable false).2 = 1) ∧
    ((Verify true true true argc2 lastIsCallable false).1 = none ∧
     countEff Effect.queueWork (Verify true true true argc2 lastIsCallable false).2 = 0 ∧
     countEff Effect.freeCtx (Verify true true true argc2 lastIsCallable false).2 = 1) ∧
    ((GetRevokedCertificates true true argc1 lastIsCallable false).1 = none ∧
     countEff Effect.queueWork
       (GetRevokedCertificates true true argc1 lastIsCallable false).2 = 0 ∧
     countEff Effect.freeCtx
       (GetRevokedCertificates true true argc1 lastIsCallable false).2 = 1) ∧
    ((NapiCreateX509Crl true true true blobData argc2 lastIsCallable false).1 = none ∧
     countEff Effect.queueWork
       (NapiCreateX509Crl true true true blobData argc2 lastIsCallable false).2 = 0 ∧
     countEff Effect.freeCtx
       (NapiCreateX509Crl true true true blobData argc2 lastIsCallable false).2 = 1) := by
  subst hargc1 hargc2 hlic
  refine ⟨⟨rfl, rfl, rfl⟩, ⟨rfl, rfl, rfl⟩, ⟨rfl, rfl, rfl⟩, ⟨rfl, ?_, ?_⟩⟩
  · exact countEff_free_queueWork { encodingBlob := some blobData, asyncType := AsyncType.callback }
  · exact (free_releasesOnce { encodingBlob := some blobData, asyncType := AsyncType.callback }).1

/-- Witness for C8: at maximum arity with a callable and failing
retention, getEncoded returns null, queues nothing and frees the
context once. -/
theorem callback_retention_failure_no_schedule_witness :
    (GetEncoded true true 1 true false).1 = none ∧
    countEff Effect.queueWork (GetEncoded true true 1 true false).2 = 0 ∧
    countEff Effect.freeCtx (GetEncoded true true 1 true false).2 = 1 :=
  (callback_retention_failure_no_schedule 1 2 true [] rfl rfl rfl).1

/-- C9: every worker executor writes only the result slot of the
context (errCode, errMsg and at most its one success payload field) and
leaves every other field unchanged; and no executor reads or writes the
completion handle fields: each executor commutes with any overwrite of
the completion mode, promise, callback, deferred and async work
fields. -/
theorem executor_frame_effect (m m2 : Bool) (r : Int) (data : List Nat) (arr : CfArray)
    (crlPtr : Nat) (c : CfCtx) (a : AsyncType) (p cb d w : Option Unit) :
    (completionUnchanged c (GetEncodedExecute m r data c) ∧
     inputsUnchanged c (GetEncodedExecute m r data c) ∧
     (GetEncodedExecute m r data c).blob = c.blob ∧
     (GetEncodedExecute m r data c).array = c.array ∧
     (GetEncodedExecute m r data c).crl = c.crl ∧
     GetEncodedExecute m r data (withCompletion a p cb d w c)
       = withCompletion a p cb d w (GetEncodedExecute m r data c)) ∧
    (completionUnchanged c (VerifyExecute r c) ∧
     inputsUnchanged c (VerifyExecute r c) ∧
     (VerifyExecute r c).encoded = c.encoded ∧
     (VerifyExecute r c).blob = c.blob ∧
     (VerifyExecute r c).array = c.array ∧
     (VerifyExecute r c).crl = c.crl ∧
     VerifyExecute r (withCompletion a p cb d w c)
       = withCompletion a p cb d w (VerifyExecute r c)) ∧
    (completionUnchanged c (GetRevokedCertificatesExecute m2 r arr c) ∧
     inputsUnchanged c (GetRevokedCertificatesExecute m2 r arr c) ∧
     (GetRevokedCertificatesExecute m2 r arr c).encoded = c.encoded ∧
     (GetRevokedCertificatesExecute m2 r arr c).blob = c.blob ∧
     (GetRevokedCertificatesExecute m2 r arr c).crl = c.crl ∧
     GetRevokedCertificatesExecute m2 r arr (withCompletion a p cb d w c)
       = withCompletion a p cb d w (GetRevokedCertificatesExecute m2 r arr c)) ∧
    (completionUnchanged c (CreateX509CrlExecute r crlPtr c) ∧
     inputsUnchanged c (CreateX509CrlExecute r crlPtr c) ∧
     (CreateX509CrlExecute r crlPtr c).encoded = c.encoded ∧
     (CreateX509CrlExecute r crlPtr c).blob = c.blob ∧
     (CreateX509CrlExecute r crlPtr c).array = c.array ∧
     CreateX509CrlExecute r crlPtr (withCompletion a p cb d w c)
       = withCompletion a p cb d w (CreateX509CrlExecute r crlPtr c)) := by
  refine ⟨⟨?_, ?_, ?_, ?_, ?_, ?_⟩, ⟨?_, ?_, ?_, ?_, ?_, ?_, ?_⟩,
    ⟨?_, ?_, ?_, ?_, ?_, ?_⟩, ⟨?_, ?_, ?_, ?_, ?_, ?_⟩⟩ <;>
    · simp only [GetEncodedExecute, VerifyExecute, GetRevokedCertificatesExecute,
        CreateX509CrlExecute, completionUnchanged, inputsUnchanged, withCompletion]
      split_ifs <;> simp

end CertFramework
